import Mathlib

/-!
Verification development for the `BiliSpider` crawl engine of
`bili_search_2.0.py` (the more complete version, which the specification
declares normative). The engine is shallowly embedded:

* Python floats are idealised as exact rationals `ℚ`; `float(...)` string
  parsing is modelled by `pyParseFloat` (decimal literals with optional sign,
  fraction and exponent; CPython extras such as digit underscores, `inf` and
  `nan` are outside the modelled input language).
* JSON values reaching the engine are modelled by small inductive field types
  (`PriceVal`, `NameField`, `ItemsField`, `DataField`, `BodyField`); a value
  that is absent and a value that is JSON `null` are distinguished exactly
  where the Python code distinguishes them (`dict.get` defaults vs `None`).
* Raised exceptions are modelled explicitly: a computation that the Python
  code lets escape is an `Except.error` / an explicit error component, and the
  `try/except` handlers of the source are the corresponding `match`es.
* The network is an oracle `net : Nat → Nat → AttemptOutcome` giving the fate
  of attempt `a` of page request `i`, and the externally-mutated `running`
  flag read inside the retry loop is an oracle `runO : Nat → Nat → Bool`
  (its value at the read performed by attempt `a` of iteration `i`); this
  over-approximates every interleaving of the two threads.
* The `while` loop of `start_search` is run on explicit fuel: every
  terminating Python execution is a run with some fuel, and fuel exhaustion
  returns the state reached so far.
* `progress_callback` invocations are logged as strings in the state (the
  `retry=True` display flag and the exact rendering of numbers / JSON payloads
  in messages are simplified; message prefixes are kept verbatim).
* `time.sleep` for the inter-page interval is a no-op in the model; the 5s
  retry delay is accounted in the `slept` counter of the request layer.
* `threading.Lock` acquisition is a no-op for the single modelled thread.
-/

/-! ## Python-style primitive helpers -/

/-- Numeric value of a list of decimal digit characters. -/
def digitsVal (cs : List Char) : Nat :=
  cs.foldl (fun a c => a * 10 + (c.toNat - 48)) 0

/-- Python `str.strip()` on a character list: drop whitespace on both ends. -/
def pyStripChars (cs : List Char) : List Char :=
  ((cs.dropWhile Char.isWhitespace).reverse.dropWhile Char.isWhitespace).reverse

/-- Python `str.strip()`. -/
def pyStrip (s : String) : String := ⟨pyStripChars s.data⟩

/-- Python `str.split("-")` on a character list: split at every dash. -/
def splitDash : List Char → List (List Char)
  | [] => [[]]
  | c :: cs =>
    if c = '-' then [] :: splitDash cs
    else
      match splitDash cs with
      | [] => [[c]]
      | g :: gs => (c :: g) :: gs

/-- Python `str.split("-")`. -/
def pySplitDash (s : String) : List String := (splitDash s.data).map (fun cs => ⟨cs⟩)

/-- Python `str.lower()` (ASCII case folding; the items in scope are CJK
strings, unaffected by either Python's or this folding). -/
def pyLower (s : String) : String := ⟨s.data.map Char.toLower⟩

/-- Does the character list start with the given needle? -/
def listStarts : List Char → List Char → Bool
  | _, [] => true
  | [], _ :: _ => false
  | c :: cs, d :: ds => (c == d) && listStarts cs ds

/-- Python `needle in hay` substring test on character lists. -/
def listSub : List Char → List Char → Bool
  | [], nd => nd.isEmpty
  | c :: cs, nd => listStarts (c :: cs) nd || listSub cs nd

/-- Python `needle in hay` substring test on strings. -/
def strSub (hay needle : String) : Bool := listSub hay.toList needle.toList

/-- Python `float(s)` on a string: `some q` on success, `none` when CPython
raises `ValueError`. Decimal literals with optional sign, fractional part and
exponent are supported. -/
def pyParseFloat (s : String) : Option ℚ :=
  let cs := pyStripChars s.data
  let sgnBody : ℚ × List Char :=
    match cs with
    | '+' :: t => (1, t)
    | '-' :: t => (-1, t)
    | t => (1, t)
  let ip := sgnBody.2.span Char.isDigit
  let fp : List Char × List Char :=
    match ip.2 with
    | '.' :: t => t.span Char.isDigit
    | t => ([], t)
  if ip.1.isEmpty && fp.1.isEmpty then none
  else
    let mant : ℚ := (digitsVal ip.1 : ℚ) + (digitsVal fp.1 : ℚ) / (10 ^ fp.1.length : ℚ)
    match fp.2 with
    | [] => some (sgnBody.1 * mant)
    | 'e' :: t =>
      match (match t with
             | '+' :: u => ((1 : Int), u)
             | '-' :: u => (-1, u)
             | u => (1, u)) with
      | (es, ed) =>
        let dg := ed.span Char.isDigit
        if dg.1.isEmpty || !dg.2.isEmpty then none
        else some (sgnBody.1 * mant * (10 : ℚ) ^ (es * (digitsVal dg.1 : Int)))
    | 'E' :: t =>
      match (match t with
             | '+' :: u => ((1 : Int), u)
             | '-' :: u => (-1, u)
             | u => (1, u)) with
      | (es, ed) =>
        let dg := ed.span Char.isDigit
        if dg.1.isEmpty || !dg.2.isEmpty then none
        else some (sgnBody.1 * mant * (10 : ℚ) ^ (es * (digitsVal dg.1 : Int)))
    | _ :: _ => none

/-- Python `int(s)` on a string: `some n` on success, `none` when CPython
raises `ValueError`. -/
def pyParseInt (s : String) : Option Int :=
  let cs := pyStripChars s.data
  let sgnBody : Int × List Char :=
    match cs with
    | '+' :: t => (1, t)
    | '-' :: t => (-1, t)
    | t => (1, t)
  let dg := sgnBody.2.span Char.isDigit
  if dg.1.isEmpty || !dg.2.isEmpty then none
  else some (sgnBody.1 * (digitsVal dg.1 : Int))

/-- Python `int(x)` on a float: truncation toward zero. -/
def pyTrunc (q : ℚ) : Int := q.num.tdiv (q.den : Int)

/-- Python truthiness of the `nextId` cursor value: `None` and `""` are
falsy, every other string is truthy. -/
def truthyStr : Option String → Bool
  | none => false
  | some s => !s.data.isEmpty

/-! ## Data model -/

/-- A JSON value sitting in a price field of a listing. `null` covers both an
absent key and a JSON `null` (Python `dict.get` returns `None` for both);
`other` is any non-string non-numeric JSON value (list, object, bool), on
which `float()` raises `TypeError`. -/
inductive PriceVal where
  | null
  | str (s : String)
  | num (q : ℚ)
  | other
deriving DecidableEq

/-- The `c2cItemsName` field of a listing. `absent` means the key is missing
(`dict.get` default applies, `item[...]` raises `KeyError`); `nonStr rp` is a
present non-string value with Python `str()` rendering `rp` (`.lower()`
raises `AttributeError` on it). JSON `null` is a `nonStr` case. -/
inductive NameField where
  | absent
  | str (s : String)
  | nonStr (rp : String)
deriving DecidableEq

/-- One raw listing record as consumed by the engine. -/
structure Item where
  c2cItemsName : NameField
  showPrice : PriceVal
  originalPrice : PriceVal
  c2cItemsId : Option String
deriving DecidableEq

/-- One accumulated result, as built by `_add_item`. -/
structure ResultItem where
  name : String
  price : ℚ
  link : String
deriving DecidableEq

/-- The `data.data` item-list field of a page: absent key (defaults to `[]`),
JSON `null` (Python `None`), or an actual list. -/
inductive ItemsField where
  | absent
  | null
  | list (l : List Item)
deriving DecidableEq

/-- The page payload under the outer `data` key. `nextId = none` covers an
absent key and JSON `null`. -/
structure PageData where
  items : ItemsField
  nextId : Option String
deriving DecidableEq

/-- The outer `data` field of the decoded body: absent (defaults to `{}`),
JSON `null` (on which `.get` raises `AttributeError`), or a page object. -/
inductive DataField where
  | absent
  | null
  | obj (pd : PageData)
deriving DecidableEq

/-- A decoded response body. -/
structure ApiBody where
  code : Option Int
  message : Option String
  data : DataField
deriving DecidableEq

/-- The body of an HTTP response as seen through `response.json()`:
undecodable (raises `json.JSONDecodeError`, caught), decodable but not a JSON
object (`.get` raises `AttributeError`, uncaught), or an object. -/
inductive BodyField where
  | decodeError
  | nonDict
  | obj (b : ApiBody)
deriving DecidableEq

/-- An HTTP response. -/
structure Response where
  status_code : Nat
  body : BodyField
deriving DecidableEq

/-- The parameter record handed to `start_search` by the GUI. -/
structure Params where
  category : String
  price_range : String
  keywords : List String
  sort_type : String
  discount : String
  cookie : String
  interval : ℚ
  max_results : Nat
deriving DecidableEq

/-- The request payload built by `_build_payload`. -/
structure Payload where
  categoryFilter : String
  priceFilters : List String
  discountFilters : List String
  nextId : Option String
  sortType : String
  keyword : String
deriving DecidableEq

/-- `BiliSpider._build_payload`. -/
def build_payload (params : Params) (next_id : Option String) : Payload :=
  { categoryFilter := params.category
    priceFilters := if params.price_range.data.isEmpty then [] else [params.price_range]
    discountFilters := if params.discount.data.isEmpty then [] else [params.discount]
    nextId := next_id
    sortType := params.sort_type
    keyword := String.intercalate " " (params.keywords.filter (fun kw => !(pyStripChars kw.data).isEmpty)) }

/-! ## Request layer (`_make_request`) -/

/-- The fate of one `requests.post` attempt, decided by the network oracle. -/
inductive AttemptOutcome where
  | success (resp : Response)
  | connError
  | timeout
  | otherError (msg : String)
deriving DecidableEq

/-- `max_retries` constant of `_make_request`. -/
def max_retries : Nat := 100

/-- `retry_delay` constant of `_make_request` (seconds). -/
def retry_delay : Nat := 5

/-- The observable outcome of one `_make_request` call. `result` is
`Except.error e` when the call raises `e`, `Except.ok (some r)` when it
returns response `r`, and `Except.ok none` when the `for` loop is exhausted
and the function implicitly returns `None`. `posts` counts issued
`requests.post` calls, `slept` the seconds spent in `time.sleep(retry_delay)`. -/
structure ReqResult where
  result : Except String (Option Response)
  retry_count : Nat
  posts : Nat
  slept : Nat
  events : List String

/-- Body of the `for attempt in range(max_retries)` loop of `_make_request`.
`runD a` is the value of `self.running` read at the top of attempt `a`;
`orc a` is the fate of attempt `a`'s `requests.post`. -/
def make_request_go (runD : Nat → Bool) (orc : Nat → AttemptOutcome) :
    Nat → Nat → Nat → Nat → Nat → List String → ReqResult
  | 0, _, r, p, s, ev => ⟨Except.ok none, r, p, s, ev⟩
  | n + 1, a, r, p, s, ev =>
    if runD a = false then ⟨Except.error "用户停止搜索", r, p, s, ev⟩
    else
      match orc a with
      | AttemptOutcome.success resp => ⟨Except.ok (some resp), r, p + 1, s, ev⟩
      | AttemptOutcome.connError =>
        make_request_go runD orc n (a + 1) (r + 1) (p + 1) (s + retry_delay)
          (ev ++ ["连接错误，正在进行第" ++ toString (r + 1) ++ "次重试"])
      | AttemptOutcome.timeout =>
        make_request_go runD orc n (a + 1) (r + 1) (p + 1) (s + retry_delay)
          (ev ++ ["连接超时，正在进行第" ++ toString (r + 1) ++ "次重试"])
      | AttemptOutcome.otherError m => ⟨Except.error ("请求异常: " ++ m), r, p + 1, s, ev⟩

/-- `BiliSpider._make_request`, entered with accumulated retry counter `r0`. -/
def make_request (runD : Nat → Bool) (orc : Nat → AttemptOutcome) (r0 : Nat) : ReqResult :=
  make_request_go runD orc max_retries 0 r0 0 0 []

/-! ## Filter predicate (`_parse_price`, `_match_conditions`, `_add_item`) -/

/-- `BiliSpider._parse_price`: `float(price)` with `TypeError`/`ValueError`
coerced to `0.0`. -/
def parse_price : PriceVal → ℚ
  | PriceVal.null => 0
  | PriceVal.str s => (pyParseFloat s).getD 0
  | PriceVal.num q => q
  | PriceVal.other => 0

/-- `item.get("c2cItemsName", "").lower()` — the name expression of
`_match_conditions`; raises (`Except.error`) on a present non-string value. -/
def nameLowerE : Item → Except String String
  | item =>
    match item.c2cItemsName with
    | NameField.absent => Except.ok ""
    | NameField.str s => Except.ok (pyLower s)
    | NameField.nonStr _ => Except.error "AttributeError: lower"

/-- The keyword clause of `_match_conditions`, on the lowered name `n`:
`keywords = [k.strip().lower() for k in params["keywords"] if k.strip()]`,
pass iff `keywords` is empty or some keyword occurs in `n`. -/
def keyword_check (n : String) (params : Params) : Bool :=
  let kws := (params.keywords.filter (fun k => !(pyStripChars k.data).isEmpty)).map
    (fun k => pyLower (pyStrip k))
  kws.isEmpty || kws.any (fun k => strSub n k)

/-- The discount clause of `_match_conditions` (the `try`-guarded block):
total, every exception inside the block yields `false`. -/
def discount_check (item : Item) (params : Params) : Bool :=
  if (pyStripChars params.discount.data).isEmpty then true
  else
    match (pySplitDash params.discount).mapM pyParseInt with
    | none => false
    | some vals =>
      if vals.length < 2 then false
      else if item.originalPrice = PriceVal.null || item.showPrice = PriceVal.null then false
      else
        let o := parse_price item.originalPrice
        let s := parse_price item.showPrice
        if o ≤ 0 then false
        else decide (vals.getD 0 0 ≤ pyTrunc (s / o * 100) ∧ pyTrunc (s / o * 100) ≤ vals.getD 1 0)

/-- `BiliSpider._match_conditions`. The only uncaught exception is the
`AttributeError` from `.lower()` on a non-string name. -/
def match_conditions (item : Item) (params : Params) : Except String Bool :=
  match nameLowerE item with
  | Except.error e => Except.error e
  | Except.ok n =>
    if keyword_check n params = false then Except.ok false
    else Except.ok (discount_check item params)

/-- `BiliSpider._add_item`: conversion of a raw listing to a `ResultItem`. -/
def add_item (item : Item) : ResultItem :=
  { name :=
      match item.c2cItemsName with
      | NameField.absent => "未知商品"
      | NameField.str s => s
      | NameField.nonStr rp => rp
    price := parse_price item.showPrice
    link := "https://mall.bilibili.com/neul-next/index.html?page=magic-market_detail&noTitleBar=1&itemsId="
      ++ item.c2cItemsId.getD "" }

/-! ## Per-item processing (`_process_data` inner loop) -/

/-- The `"找到：..."` progress message of `_process_data`; `item['c2cItemsName']`
raises `KeyError` (whose `str()` is `'c2cItemsName'`) when the key is absent. -/
def found_event (item : Item) : Except String String :=
  match item.c2cItemsName with
  | NameField.absent => Except.error "'c2cItemsName'"
  | NameField.str s =>
    Except.ok ("找到：" ++ s ++ " | 价格：" ++ toString (parse_price item.showPrice) ++ "元")
  | NameField.nonStr rp =>
    Except.ok ("找到：" ++ rp ++ " | 价格：" ++ toString (parse_price item.showPrice) ++ "元")

/-- The `"过滤：..."` progress message of `_process_data`; same `KeyError`
behaviour as `found_event`. -/
def filtered_event (item : Item) : Except String String :=
  match item.c2cItemsName with
  | NameField.absent => Except.error "'c2cItemsName'"
  | NameField.str s => Except.ok ("过滤：" ++ s ++ " 未通过条件")
  | NameField.nonStr rp => Except.ok ("过滤：" ++ rp ++ " 未通过条件")

/-- The `try` block of the per-item loop of `_process_data`. Returns the
appended results, the `new_items` increment and the emitted events together
with the exception (if any) escaping the block — the effects that precede the
raise are kept, exactly as `self.results.append` precedes the raising
callback in the source. -/
def process_item_try (item : Item) (params : Params) :
    (List ResultItem × Nat × List String) × Option String :=
  match match_conditions item params with
  | Except.error e => (([], 0, []), some e)
  | Except.ok true =>
    match found_event item with
    | Except.error e => (([add_item item], 1, []), some e)
    | Except.ok m => (([add_item item], 1, [m]), none)
  | Except.ok false =>
    match filtered_event item with
    | Except.error e => (([], 0, []), some e)
    | Except.ok m => (([], 0, [m]), none)

/-- One iteration of the per-item loop with its `except` handler: an escaping
exception is logged through the callback and swallowed. -/
def process_item (item : Item) (params : Params) : List ResultItem × Nat × List String :=
  match process_item_try item params with
  | (t, none) => t
  | (t, some e) => (t.1, t.2.1, t.2.2 ++ ["数据处理错误: " ++ e])

/-- The full `for item in items` loop, folding `process_item` over the page
while accumulating results, the `new_items` counter and events. -/
def process_items (params : Params) : List Item → (List ResultItem × Nat × List String) →
    (List ResultItem × Nat × List String)
  | [], acc => acc
  | item :: rest, acc =>
    let t := process_item item params
    process_items params rest (acc.1 ++ t.1, acc.2.1 + t.2.1, acc.2.2 ++ t.2.2)

/-- Did `_match_conditions` return `True` for this item? -/
def matchedB (item : Item) (params : Params) : Bool :=
  match match_conditions item params with
  | Except.ok true => true
  | _ => false

/-- The converted results a page contributes: every matching item, in order. -/
def matchedItems (params : Params) (items : List Item) : List ResultItem :=
  (items.filter (fun i => matchedB i params)).map add_item

/-! ## Crawl state and response handling -/

/-- The engine state owned by `BiliSpider`, instrumented with observation
counters: `payloads` records every page request issued (in order), `posts`
counts `requests.post` calls, `slept` the retry-delay seconds. -/
structure SpiderState where
  running : Bool
  results : List ResultItem
  next_id : Option String
  retry_count : Nat
  posts : Nat
  slept : Nat
  payloads : List Payload
  events : List String

/-- Outcome of `_process_data`: a normal return carrying the continue flag,
or an escaping exception. -/
inductive PStep where
  | ok (st : SpiderState) (cont : Bool)
  | raise (st : SpiderState) (e : String)

/-- Python truthiness of a `requests.Response` object: `bool(response)` is
`response.ok`, i.e. `status_code < 400`. -/
def respTruthy (r : Response) : Bool := r.status_code < 400

/-- `BiliSpider._validate_response`: the verdict and the emitted events.
Because a `requests.Response` with status ≥ 400 is falsy, the `if not
response` branch also captures every 4xx/5xx (including 412), making the
dedicated 412 / non-200 branches unreachable for real responses; they are
kept verbatim. -/
def validate_response : Option Response → Bool × List String
  | none => (false, ["服务器无响应"])
  | some r =>
    if respTruthy r = false then (false, ["服务器无响应"])
    else if r.status_code = 412 then (false, ["触发反爬机制，请更换IP或Cookie"])
    else if r.status_code ≠ 200 then (false, ["HTTP错误码: " ++ toString r.status_code])
    else (true, [])

/-- `BiliSpider._parse_response`: `Except.ok (some b, evs)` hands the decoded
body to `_process_data`; `Except.ok (none, evs)` is the `return None` path;
`Except.error` is the uncaught `AttributeError` on a non-object body. -/
def parse_response (r : Response) : Except String (Option ApiBody × List String) :=
  match r.body with
  | BodyField.decodeError => Except.ok (none, ["无效的JSON响应"])
  | BodyField.nonDict => Except.error "AttributeError: get"
  | BodyField.obj b =>
    if b.code = some 0 then Except.ok (some b, [])
    else Except.ok (none, ["API错误: " ++ (match b.message with | none => "None" | some m => m)])

/-- The tail of `_process_data` shared by every branch that reaches the item
loop: emit the page-size message, process the items, emit the empty-page
message if nothing matched, store the new cursor and decide whether the loop
goes on. -/
def process_page (params : Params) (items : List Item) (next : Option String)
    (st : SpiderState) : PStep :=
  let st1 : SpiderState :=
    { st with events := st.events ++ ["本页返回商品数: " ++ toString items.length] }
  let t := process_items params items ([], 0, [])
  let st2 : SpiderState := { st1 with results := st1.results ++ t.1, events := st1.events ++ t.2.2 }
  let st3 : SpiderState :=
    if t.2.1 = 0 then { st2 with events := st2.events ++ ["本页未找到符合条件的结果"] } else st2
  let st4 : SpiderState := { st3 with next_id := next }
  if truthyStr next then PStep.ok st4 true
  else PStep.ok { st4 with events := st4.events ++ ["已到达最后一页"] } false

/-- `BiliSpider._process_data`. A JSON-`null` outer `data` makes
`.get("data", {}).get(...)` raise `AttributeError` (uncaught, `PStep.raise`);
a `null` item list is reported and ends the loop before any processing; an
absent key defaults exactly as the source's `get` defaults do. -/
def process_data (b : ApiBody) (params : Params) (st : SpiderState) : PStep :=
  match b.data with
  | DataField.null => PStep.raise st "AttributeError: NoneType get"
  | DataField.absent => process_page params [] none st
  | DataField.obj pd =>
    match pd.items with
    | ItemsField.null => PStep.ok { st with events := st.events ++ ["API返回的商品列表为None"] } false
    | ItemsField.absent => process_page params [] pd.nextId st
    | ItemsField.list l => process_page params l pd.nextId st

/-! ## The crawl loop (`start_search`) -/

/-- Outcome of one iteration of the `while` loop body: continue, `break`, or
an exception escaping toward `start_search`'s handler. -/
inductive IterOut where
  | cont (st : SpiderState)
  | brk (st : SpiderState)
  | raise (st : SpiderState) (e : String)

/-- One iteration of the `while` loop of `start_search` (its guard excluded):
build the payload, fetch (`runD`/`orc` are this iteration's slices of the
flag and network oracles), validate, parse, process. The inter-page
`time.sleep(interval)` is a no-op here. -/
def loop_body (params : Params) (runD : Nat → Bool) (orc : Nat → AttemptOutcome)
    (st : SpiderState) : IterOut :=
  let payload := build_payload params st.next_id
  let st1 : SpiderState :=
    { st with events := st.events ++ ["请求参数"], payloads := st.payloads ++ [payload] }
  let rr := make_request runD orc st.retry_count
  let st2 : SpiderState :=
    { st1 with retry_count := rr.retry_count, posts := st1.posts + rr.posts,
               slept := st1.slept + rr.slept, events := st1.events ++ rr.events }
  match rr.result with
  | Except.error e => IterOut.raise st2 e
  | Except.ok resp? =>
    let v := validate_response resp?
    let st3 : SpiderState := { st2 with events := st2.events ++ v.2 }
    if v.1 = false then IterOut.brk st3
    else
      match resp? with
      | none => IterOut.brk st3
      | some r =>
        match parse_response r with
        | Except.error e => IterOut.raise st3 e
        | Except.ok (none, evs) => IterOut.brk { st3 with events := st3.events ++ evs }
        | Except.ok (some b, evs) =>
          match process_data b params { st3 with events := st3.events ++ evs } with
          | PStep.raise st5 e => IterOut.raise st5 e
          | PStep.ok st5 true => IterOut.cont st5
          | PStep.ok st5 false => IterOut.brk st5

/-- The `while self.running and len(self.results) < params["max_results"]`
loop, on explicit fuel; `i` numbers the iterations for the oracles. The
second component is the exception escaping toward `start_search`'s handler,
if any. Fuel exhaustion returns the state reached so far. -/
def search_loop (params : Params) (runO : Nat → Nat → Bool) (net : Nat → Nat → AttemptOutcome) :
    Nat → Nat → SpiderState → SpiderState × Option String
  | 0, _, st => (st, none)
  | fuel + 1, i, st =>
    if st.running = true ∧ st.results.length < params.max_results then
      match loop_body params (runO i) (net i) st with
      | IterOut.raise st2 e => (st2, some e)
      | IterOut.brk st2 => (st2, none)
      | IterOut.cont st2 => search_loop params runO net fuel (i + 1) st2
    else (st, none)

/-- `BiliSpider.start_search`: reset the per-crawl state, run the loop inside
`try/except Exception/finally`, and return `self.results` (the whole final
state is returned so that the instrumentation stays observable). -/
def start_search (params : Params) (runO : Nat → Nat → Bool)
    (net : Nat → Nat → AttemptOutcome) (fuel : Nat) (st0 : SpiderState) : SpiderState :=
  let st1 : SpiderState := { st0 with running := true, results := [], next_id := none }
  match search_loop params runO net fuel 0 st1 with
  | (st, none) => { st with running := false }
  | (st, some e) => { st with events := st.events ++ ["发生错误: " ++ e], running := false }

/-! ## Spec-side definition (for comparison with the code) -/

/-- Modelled from the spec: `actual = floor(currentPrice / originalPrice * 100)` —
the discount percentage as the specification words it (mathematical floor),
to be compared with the code's `int(...)` truncation toward zero. -/
def spec_floor_actual (item : Item) : Int :=
  Rat.floor (parse_price item.showPrice / parse_price item.originalPrice * 100)

/-! ## Concrete sample data for closed instances -/

/-- Is this attempt outcome a retryable network failure
(`requests.exceptions.ConnectionError` / `Timeout`)? -/
def isNetErr : AttemptOutcome → Bool
  | AttemptOutcome.connError => true
  | AttemptOutcome.timeout => true
  | _ => false

/-- A plain criteria record: no keywords, no discount filter. -/
def baseParams : Params :=
  { category := "2312", price_range := "", keywords := [], sort_type := "TIME_DESC",
    discount := "", cookie := "c", interval := 0, max_results := 500 }

/-- The all-zero spider state, as after `BiliSpider.__init__`. -/
def initState0 : SpiderState :=
  { running := false, results := [], next_id := none, retry_count := 0,
    posts := 0, slept := 0, payloads := [], events := [] }

/-- The spider state at the top of the crawl loop. -/
def startState : SpiderState := { initState0 with running := true }

/-- A spider state in which the stop flag has been set after one result. -/
def stoppedState : SpiderState :=
  { initState0 with
    running := false
    results := [⟨"高达手办A", 25 / 2, "L"⟩] }

/-- A listing with a string name and prices. -/
def itemA : Item :=
  { c2cItemsName := NameField.str "高达手办A", showPrice := PriceVal.str "12.5",
    originalPrice := PriceVal.num 100, c2cItemsId := some "111" }

/-- A second listing. -/
def itemB : Item :=
  { c2cItemsName := NameField.str "B模型", showPrice := PriceVal.num 30,
    originalPrice := PriceVal.num 100, c2cItemsId := none }

/-- A listing whose `c2cItemsName` key is missing: matching it succeeds (no
keywords, no discount) but emitting its "found" event raises `KeyError`. -/
def badItem : Item :=
  { c2cItemsName := NameField.absent, showPrice := PriceVal.num 10,
    originalPrice := PriceVal.null, c2cItemsId := none }

/-- A 200 response whose page carries two listings and no next cursor. -/
def lastPageResp : Response :=
  { status_code := 200,
    body := BodyField.obj
      { code := some 0, message := none,
        data := DataField.obj { items := ItemsField.list [itemA, itemB], nextId := none } } }

/-- A network in which every request immediately succeeds with `lastPageResp`. -/
def lastPageNet : Nat → Nat → AttemptOutcome := fun _ _ => AttemptOutcome.success lastPageResp

/-- A running flag that never gets cleared. -/
def runTrue : Nat → Nat → Bool := fun _ _ => true

/-- Criteria with `max_results = 1`, to expose the page-boundary enforcement. -/
def overflowParams : Params := { baseParams with max_results := 1 }

/-- The counterexample listing for the discount-floor claim: current price
`-1`, original price `128`, so the exact ratio `·100` is `-25/32`, truncated
to `0` by the code`s `int()` but floored to `-1` by the spec's formula (all
involved Python floats are exactly representable, so the idealisation is
faithful here). -/
def c3Item : Item :=
  { c2cItemsName := NameField.str "x", showPrice := PriceVal.str "-1",
    originalPrice := PriceVal.str "128", c2cItemsId := none }

/-- Criteria with discount range `[0, 30]`. -/
def c3Params : Params := { baseParams with discount := "0-30" }

/-- The spec's discount boundary listing: original 100, current 30. -/
def item30 : Item :=
  { c2cItemsName := NameField.str "x", showPrice := PriceVal.num 30,
    originalPrice := PriceVal.num 100, c2cItemsId := none }

/-- Criteria with discount range `[30, 50]`. -/
def params3050 : Params := { baseParams with discount := "30-50" }

/-- Criteria with discount range `[31, 50]`. -/
def params3150 : Params := { baseParams with discount := "31-50" }

/-- A listing whose name contains `手办`. -/
def c5Item : Item :=
  { c2cItemsName := NameField.str "ABC手办", showPrice := PriceVal.num 1,
    originalPrice := PriceVal.null, c2cItemsId := none }

/-- Criteria configuring one non-blank keyword (`手办`) and one blank one. -/
def c5Params : Params := { baseParams with keywords := ["手办", ""] }

/-! ## Theorems -/

/-- One unfolding step of the `_make_request` attempt loop. -/
theorem make_request_go_succ (runD : Nat → Bool) (orc : Nat → AttemptOutcome)
    (n a r p s : Nat) (ev : List String) :
    make_request_go runD orc (n + 1) a r p s ev =
      if runD a = false then ⟨Except.error "用户停止搜索", r, p, s, ev⟩
      else match orc a with
        | AttemptOutcome.success resp => ⟨Except.ok (some resp), r, p + 1, s, ev⟩
        | AttemptOutcome.connError =>
          make_request_go runD orc n (a + 1) (r + 1) (p + 1) (s + retry_delay)
            (ev ++ ["连接错误，正在进行第" ++ toString (r + 1) ++ "次重试"])
        | AttemptOutcome.timeout =>
          make_request_go runD orc n (a + 1) (r + 1) (p + 1) (s + retry_delay)
            (ev ++ ["连接超时，正在进行第" ++ toString (r + 1) ++ "次重试"])
        | AttemptOutcome.otherError m =>
          ⟨Except.error ("请求异常: " ++ m), r, p + 1, s, ev⟩ := rfl

unseal Rat.add Rat.mul Rat.inv Rat.sub in
/-- C6: the price parser is a total function (it can never raise): a
non-numeric string coerces to `0.0`, an absent value (`None`) coerces to
`0.0`, the numeric string `"12.5"` parses to `12.5`, and on every string
field it is exactly the exception-free coercion of `float`. -/
theorem c6_parse_price_lenient :
    parse_price (PriceVal.str "abc") = 0
    ∧ parse_price PriceVal.null = 0
    ∧ parse_price (PriceVal.str "12.5") = 25 / 2
    ∧ ∀ s : String, parse_price (PriceVal.str s) = (pyParseFloat s).getD 0 := by
  refine ⟨by decide, rfl, by decide, fun s => rfl⟩

/-- C10: on every return path of `start_search` — whatever the network
behaviour, the flag oracle, the fuel and the initial state — the `running`
flag of the returned state is `false`. -/
theorem c10_running_false_on_return (params : Params) (runO : Nat → Nat → Bool)
    (net : Nat → Nat → AttemptOutcome) (fuel : Nat) (st0 : SpiderState) :
    (start_search params runO net fuel st0).running = false := by
  simp only [start_search]
  split <;> rfl

/-- C1: for every criteria record and every behaviour of the network (and of
the concurrently read stop flag), `start_search` returns normally: its result
is exactly the state accumulated by the loop, an exception escaping the loop
is converted into an error event instead of propagating, and the returned
result sequence is the accumulated (possibly empty) one. -/
theorem c1_start_search_never_raises (params : Params) (runO : Nat → Nat → Bool)
    (net : Nat → Nat → AttemptOutcome) (fuel : Nat) (st0 : SpiderState) :
    ∃ stL err,
      search_loop params runO net fuel 0
          { st0 with running := true, results := [], next_id := none } = (stL, err)
      ∧ start_search params runO net fuel st0
        = { stL with
            running := false
            events := stL.events ++
              (match err with | none => [] | some e => ["发生错误: " ++ e]) }
      ∧ (start_search params runO net fuel st0).results = stL.results := by
  rcases hsl : search_loop params runO net fuel 0
      { st0 with running := true, results := [], next_id := none } with ⟨stL, err⟩
  refine ⟨stL, err, rfl, ?_, ?_⟩ <;>
    simp only [start_search] <;> rw [hsl] <;> cases err <;> simp

/-- C7: if the stop flag is already `false` when an iteration would begin,
the loop returns at once — the state (results, issued payloads, post count)
is returned unchanged and no request is made; moreover inside `_make_request`
a cleared flag observed before an attempt raises the stop exception without
issuing that attempt's `requests.post`. -/
theorem c7_stop_flag_prevents_request :
    (∀ (params : Params) (runO : Nat → Nat → Bool) (net : Nat → Nat → AttemptOutcome)
       (fuel i : Nat) (st : SpiderState), st.running = false →
      search_loop params runO net fuel i st = (st, none))
    ∧ (∀ (runD : Nat → Bool) (orc : Nat → AttemptOutcome) (r0 : Nat), runD 0 = false →
      (make_request runD orc r0).result = Except.error "用户停止搜索"
      ∧ (make_request runD orc r0).posts = 0) := by
  constructor
  · intro params runO net fuel i st h
    cases fuel with
    | zero => rfl
    | succ n => simp [search_loop, h]
  · intro runD orc r0 h
    have hmk : make_request runD orc r0 = ⟨Except.error "用户停止搜索", r0, 0, 0, []⟩ := by
      show make_request_go runD orc (99 + 1) 0 r0 0 0 [] = _
      rw [make_request_go_succ, if_pos h]
    exact ⟨by rw [hmk], by rw [hmk]⟩

/-- Witness for the stop-flag theorem at a concrete cancelled state. -/
theorem c7_stop_flag_witness :
    search_loop baseParams runTrue lastPageNet 3 0 stoppedState = (stoppedState, none)
    ∧ (make_request (fun _ => false) (fun _ => AttemptOutcome.connError) 0).result
        = Except.error "用户停止搜索" := by
  refine ⟨c7_stop_flag_prevents_request.1 baseParams runTrue lastPageNet 3 0 stoppedState rfl, ?_⟩
  exact (c7_stop_flag_prevents_request.2 (fun _ => false) (fun _ => AttemptOutcome.connError) 0 rfl).1

/-- The per-item step appends the converted item exactly when `_match_conditions`
returned `True`, whatever events or per-item exceptions occur. -/
theorem process_item_shape (item : Item) (params : Params) :
    ∃ ev, process_item item params =
      ((if matchedB item params then [add_item item] else []),
       (if matchedB item params then 1 else 0), ev) := by
  rcases hm : match_conditions item params with e | b
  · exact ⟨["数据处理错误: " ++ e], by simp [process_item, process_item_try, matchedB, hm]⟩
  · cases b
    · rcases hf : filtered_event item with e2 | m
      · exact ⟨["数据处理错误: " ++ e2],
          by simp [process_item, process_item_try, matchedB, hm, hf]⟩
      · exact ⟨[m], by simp [process_item, process_item_try, matchedB, hm, hf]⟩
    · rcases hf : found_event item with e2 | m
      · exact ⟨["数据处理错误: " ++ e2],
          by simp [process_item, process_item_try, matchedB, hm, hf]⟩
      · exact ⟨[m], by simp [process_item, process_item_try, matchedB, hm, hf]⟩

/-- Unfolding of the page's match list over a cons. -/
theorem matchedItems_cons (params : Params) (i : Item) (rest : List Item) :
    matchedItems params (i :: rest) =
      (if matchedB i params then [add_item i] else []) ++ matchedItems params rest := by
  by_cases h : matchedB i params <;> simp [matchedItems, h]

/-- The item loop appends exactly the page's matches to the accumulator. -/
theorem process_items_results (params : Params) :
    ∀ (items : List Item) (acc : List ResultItem × Nat × List String),
      ∃ n ev, process_items params items acc = (acc.1 ++ matchedItems params items, n, ev) := by
  intro items
  induction items with
  | nil => intro acc; exact ⟨acc.2.1, acc.2.2, by simp [process_items, matchedItems]⟩
  | cons i rest ih =>
    intro acc
    obtain ⟨evi, hi⟩ := process_item_shape i params
    obtain ⟨n, ev, hr⟩ := ih (acc.1 ++ (process_item i params).1,
      acc.2.1 + (process_item i params).2.1, acc.2.2 ++ (process_item i params).2.2)
    refine ⟨n, ev, ?_⟩
    simp only [process_items]
    rw [hr, hi]
    simp [matchedItems_cons, hi, List.append_assoc]

/-- `_process_data`'s tail: the page is fully processed, every match is
appended, the cursor is stored, and the continue flag is the truthiness of
the new cursor; results, payloads and counters are otherwise untouched. -/
theorem process_page_spec (params : Params) (items : List Item) (next : Option String)
    (st : SpiderState) :
    ∃ stF, process_page params items next st = PStep.ok stF (truthyStr next)
      ∧ stF.results = st.results ++ matchedItems params items
      ∧ stF.payloads = st.payloads
      ∧ stF.running = st.running
      ∧ stF.next_id = next
      ∧ stF.retry_count = st.retry_count
      ∧ stF.posts = st.posts := by
  obtain ⟨n, ev, hpi⟩ := process_items_results params items ([], 0, [])
  by_cases hn : n = 0 <;> by_cases ht : truthyStr next = true <;>
    simp [process_page, hpi, hn, ht]

/-- A loop iteration whose body breaks ends `search_loop` at once, whatever
fuel remains. -/
theorem search_loop_brk (params : Params) (runO : Nat → Nat → Bool)
    (net : Nat → Nat → AttemptOutcome) (fuel i : Nat) (st st2 : SpiderState)
    (hg : st.running = true) (hlen : st.results.length < params.max_results)
    (hb : loop_body params (runO i) (net i) st = IterOut.brk st2) :
    search_loop params runO net (fuel + 1) i st = (st2, none) := by
  simp [search_loop, hg, hlen, hb]

/-- `_make_request` returns at once when the very first attempt succeeds. -/
theorem make_request_first_success (runD : Nat → Bool) (orc : Nat → AttemptOutcome)
    (r0 : Nat) (r : Response) (hr : runD 0 = true) (ho : orc 0 = AttemptOutcome.success r) :
    make_request runD orc r0 = ⟨Except.ok (some r), r0, 1, 0, []⟩ := by
  show make_request_go runD orc (99 + 1) 0 r0 0 0 [] = _
  rw [make_request_go_succ, hr, ho]
  simp

/-- One full successful iteration: first attempt returns a 200 response with
a well-formed body carrying a page; the iteration processes the page and
continues or breaks according to the new cursor's truthiness. -/
theorem loop_body_ok_page (params : Params) (runD : Nat → Bool) (orc : Nat → AttemptOutcome)
    (st : SpiderState) (r : Response) (b : ApiBody) (pd : PageData) (l : List Item)
    (hr : runD 0 = true) (ho : orc 0 = AttemptOutcome.success r)
    (hs : r.status_code = 200) (hb : r.body = BodyField.obj b) (hc : b.code = some 0)
    (hd : b.data = DataField.obj pd) (hi : pd.items = ItemsField.list l) :
    ∃ stF, (if truthyStr pd.nextId then loop_body params runD orc st = IterOut.cont stF
            else loop_body params runD orc st = IterOut.brk stF)
      ∧ stF.results = st.results ++ matchedItems params l
      ∧ stF.payloads = st.payloads ++ [build_payload params st.next_id]
      ∧ stF.running = st.running
      ∧ stF.next_id = pd.nextId
      ∧ stF.posts = st.posts + 1 := by
  have hmk := make_request_first_success runD orc st.retry_count r hr ho
  obtain ⟨stF, hpp, hres, hpay, hrun, hnext, hrc, hposts⟩ :=
    process_page_spec params l pd.nextId
      { st with
        events := st.events ++ ["请求参数"]
        payloads := st.payloads ++ [build_payload params st.next_id]
        posts := st.posts + 1 }
  refine ⟨stF, ?_, ?_, ?_, ?_, ?_, ?_⟩
  · by_cases ht : truthyStr pd.nextId = true <;>
      simp [ht, loop_body, hmk, validate_response, parse_response, respTruthy, hs, hb, hc,
        process_data, hd, hi, hpp]
  · simp [hres]
  · simp [hpay]
  · simp [hrun]
  · exact hnext
  · simp [hposts]

/-- C2: a page whose new cursor is absent (`None`) or empty still has all its
items processed — every match is appended — and `_process_data` then returns
the loop-ending verdict; lifted to the loop, such an iteration ends
`search_loop` immediately whatever fuel remains, with exactly one more
request (payload) issued than before the iteration. -/
theorem c2_empty_next_id_ends_loop :
    (∀ (params : Params) (items : List Item) (next : Option String) (st : SpiderState)
       (code : Option Int) (msg : Option String),
      truthyStr next = false →
      ∃ stF, process_data ⟨code, msg, DataField.obj ⟨ItemsField.list items, next⟩⟩ params st
          = PStep.ok stF false
        ∧ stF.results = st.results ++ matchedItems params items)
    ∧ (∀ (params : Params) (runO : Nat → Nat → Bool) (net : Nat → Nat → AttemptOutcome)
        (fuel i : Nat) (st : SpiderState) (r : Response) (b : ApiBody) (pd : PageData)
        (l : List Item),
        st.running = true → st.results.length < params.max_results →
        runO i 0 = true → net i 0 = AttemptOutcome.success r →
        r.status_code = 200 → r.body = BodyField.obj b → b.code = some 0 →
        b.data = DataField.obj pd → pd.items = ItemsField.list l →
        truthyStr pd.nextId = false →
        ∃ stF, search_loop params runO net (fuel + 1) i st = (stF, none)
          ∧ stF.results = st.results ++ matchedItems params l
          ∧ stF.payloads = st.payloads ++ [build_payload params st.next_id]) := by
  constructor
  · intro params items next st code msg ht
    obtain ⟨stF, hpp, hres, -⟩ := process_page_spec params items next st
    rw [ht] at hpp
    exact ⟨stF, by simp [process_data, hpp], hres⟩
  · intro params runO net fuel i st r b pd l hg hlen hr ho hs hb hc hd hi ht
    obtain ⟨stF, hif, hres, hpay, -⟩ :=
      loop_body_ok_page params (runO i) (net i) st r b pd l hr ho hs hb hc hd hi
    rw [ht] at hif
    simp only [Bool.false_eq_true, if_false] at hif
    exact ⟨stF, search_loop_brk params runO net fuel i st stF hg hlen hif, hres, hpay⟩

/-- Witness for the pagination-termination theorem: a concrete one-page crawl
(200 response, two listings, no cursor) ends after exactly one request with
both matches appended. -/
theorem c2_empty_next_id_witness :
    ∃ stF, search_loop baseParams runTrue lastPageNet 3 0 startState = (stF, none)
      ∧ stF.results = startState.results ++ matchedItems baseParams [itemA, itemB]
      ∧ stF.payloads = startState.payloads ++ [build_payload baseParams startState.next_id] :=
  c2_empty_next_id_ends_loop.2 baseParams runTrue lastPageNet 2 0 startState
    lastPageResp _ _ [itemA, itemB] rfl (by decide) rfl rfl rfl rfl rfl rfl rfl rfl

/-- C8: a per-item exception (raised while matching, converting or emitting
the item's event) is confined to that item: the handler keeps the effects
already performed, appends the error log event, the rest of the page is
processed unchanged (the item loop is a fold, so a bad item never aborts its
page), and `_process_data`'s page path always returns normally — `PStep.ok` —
so the crawl loop continues past per-item failures. -/
theorem c8_per_item_error_isolated :
    (∀ (item : Item) (params : Params) (e : String),
      (process_item_try item params).2 = some e →
      process_item item params
        = ((process_item_try item params).1.1, (process_item_try item params).1.2.1,
           (process_item_try item params).1.2.2 ++ ["数据处理错误: " ++ e]))
    ∧ (∀ (params : Params) (xs ys : List Item) (acc : List ResultItem × Nat × List String),
      process_items params (xs ++ ys) acc = process_items params ys (process_items params xs acc))
    ∧ (∀ (params : Params) (items : List Item) (next : Option String) (st : SpiderState),
      ∃ stF k, process_page params items next st = PStep.ok stF k) := by
  refine ⟨?_, ?_, ?_⟩
  · intro item params e h
    rcases hp : process_item_try item params with ⟨t, e2⟩
    rw [hp] at h
    simp only at h
    subst h
    simp [process_item, hp]
  · intro params xs
    induction xs with
    | nil => intro ys acc; simp [process_items]
    | cons i rest ih => intro ys acc; simp only [List.cons_append, process_items]; exact ih ys _
  · intro params items next st
    obtain ⟨stF, hpp, -⟩ := process_page_spec params items next st
    exact ⟨stF, truthyStr next, hpp⟩

/-- Witness for per-item isolation: the listing with a missing name key
matches (it is appended, the counter advances) and its raising "found" event
is logged as a data-processing error instead of aborting. -/
theorem c8_per_item_error_witness :
    process_item badItem baseParams
      = ([add_item badItem], 1, ["数据处理错误: 'c2cItemsName'"]) := by
  have h := c8_per_item_error_isolated.1 badItem baseParams "'c2cItemsName'" rfl
  rw [h]
  rfl

/-- C9: the `max_results` limit is enforced only at page boundaries. A new
iteration (hence a new request) happens only while strictly fewer than
`max_results` results are accumulated; once the limit is reached the loop
returns at once. Within a page every matching item is appended with no
truncation, so after an admitted page the count is at most
`max_results - 1` plus that page's match count — and it can exceed
`max_results`, as the concrete crawl with `max_results = 1` returning 2
results shows. -/
theorem c9_max_results_page_boundary :
    (∀ (params : Params) (runO : Nat → Nat → Bool) (net : Nat → Nat → AttemptOutcome)
       (fuel i : Nat) (st : SpiderState),
      params.max_results ≤ st.results.length →
      search_loop params runO net (fuel + 1) i st = (st, none))
    ∧ (∀ (params : Params) (items : List Item) (next : Option String) (st : SpiderState),
      ∃ stF k, process_page params items next st = PStep.ok stF k
        ∧ stF.results.length = st.results.length + (matchedItems params items).length)
    ∧ (∀ (params : Params) (items : List Item) (next : Option String) (st : SpiderState),
      st.results.length < params.max_results →
      ∃ stF k, process_page params items next st = PStep.ok stF k
        ∧ stF.results.length ≤ params.max_results - 1 + (matchedItems params items).length)
    ∧ ((start_search overflowParams runTrue lastPageNet 5 initState0).results.length = 2
       ∧ overflowParams.max_results = 1) := by
  refine ⟨?_, ?_, ?_, ?_, ?_⟩
  · intro params runO net fuel i st h
    simp only [search_loop]
    rw [if_neg]
    rintro ⟨-, hlt⟩
    omega
  · intro params items next st
    obtain ⟨stF, hpp, hres, -⟩ := process_page_spec params items next st
    exact ⟨stF, truthyStr next, hpp, by simp [hres]⟩
  · intro params items next st hlt
    obtain ⟨stF, hpp, hres, -⟩ := process_page_spec params items next st
    refine ⟨stF, truthyStr next, hpp, ?_⟩
    have : stF.results.length = st.results.length + (matchedItems params items).length := by
      simp [hres]
    omega
  · rfl
  · rfl

/-- Witness for the page-boundary theorem: a saturated state returns at once
with no request, and an admitted page obeys the boundary bound. -/
theorem c9_max_results_witness :
    search_loop overflowParams runTrue lastPageNet 3 0 stoppedState = (stoppedState, none)
    ∧ ∃ stF k, process_page overflowParams [itemA] none startState = PStep.ok stF k
        ∧ stF.results.length ≤ overflowParams.max_results - 1
            + (matchedItems overflowParams [itemA]).length :=
  ⟨c9_max_results_page_boundary.1 overflowParams runTrue lastPageNet 2 0 stoppedState (by decide),
   c9_max_results_page_boundary.2.2.1 overflowParams [itemA] none startState (by decide)⟩

/-- C5: the keyword clause of `_match_conditions`. If no keyword is non-blank
the clause passes unconditionally (the predicate reduces to the discount
clause); if some keyword is non-blank, the predicate can only return `True`
when the lowered display name contains at least one configured keyword,
stripped and lowered, as a substring. -/
theorem c5_keyword_filter :
    (∀ (item : Item) (params : Params) (n : String),
      params.keywords.filter (fun k => !(pyStripChars k.data).isEmpty) = [] →
      nameLowerE item = Except.ok n →
      match_conditions item params = Except.ok (discount_check item params))
    ∧ (∀ (item : Item) (params : Params) (n : String),
      nameLowerE item = Except.ok n →
      match_conditions item params = Except.ok true →
      params.keywords.filter (fun k => !(pyStripChars k.data).isEmpty) ≠ [] →
      ∃ k ∈ params.keywords.filter (fun k => !(pyStripChars k.data).isEmpty),
        strSub n (pyLower (pyStrip k)) = true) := by
  constructor
  · intro item params n hf hn
    simp [match_conditions, hn, keyword_check, hf]
  · intro item params n hn hm hne
    have hk : keyword_check n params = true := by
      cases hkc : keyword_check n params
      · simp [match_conditions, hn, hkc] at hm
      · rfl
    simp only [keyword_check, List.isEmpty_eq_true, List.map_eq_nil_iff, hne,
      Bool.or_eq_true, decide_eq_true_eq, List.any_eq_true, List.mem_map] at hk
    rcases hk with hemp | ⟨x, ⟨k, hkmem, rfl⟩, hx⟩
    · exact hemp.elim
    · exact ⟨k, hkmem, hx⟩

/-- Witness for the keyword clause: with no non-blank keyword the predicate
reduces to the discount clause; with the keyword `手办` configured and
matching, a matched keyword occurs in the lowered name. -/
theorem c5_keyword_filter_witness :
    match_conditions itemB baseParams = Except.ok (discount_check itemB baseParams)
    ∧ ∃ k ∈ c5Params.keywords.filter (fun k => !(pyStripChars k.data).isEmpty),
        strSub (pyLower "ABC手办") (pyLower (pyStrip k)) = true :=
  ⟨c5_keyword_filter.1 itemB baseParams (pyLower "B模型") rfl rfl,
   c5_keyword_filter.2 c5Item c5Params (pyLower "ABC手办") rfl rfl (by decide)⟩

unseal Rat.add Rat.mul Rat.inv Rat.sub in
/-- C3 falls on the code: `_match_conditions` computes the discount with
Python `int()` — truncation toward zero — not mathematical floor. At current
price `"-1"` and original price `"128"` with configured range `[0, 30]`, the
exact ratio times 100 is `-25/32`: the code truncates to `0` and admits the
listing, while the spec's `floor` gives `-1` and rejects it, so "matches iff
low ≤ floor(currentPrice / originalPrice * 100) ≤ high" is false here. Every
Python float arising at this input is exactly representable, so the rational
idealisation is exact. -/
theorem c3_floor_counterexample :
    match_conditions c3Item c3Params = Except.ok true
    ∧ spec_floor_actual c3Item = -1
    ∧ ¬(0 ≤ spec_floor_actual c3Item ∧ spec_floor_actual c3Item ≤ 30) := by
  refine ⟨rfl, by decide, by decide⟩

unseal Rat.add Rat.mul Rat.inv Rat.sub in
/-- C3 (amended): the discount clause requires both prices present (non-null)
and a positive parsed original price, else it is `false`; with a well-formed
configured range `[low, high]` it matches iff
`low ≤ int(currentPrice / originalPrice * 100) ≤ high`, where `int` is
truncation toward zero (equal to floor for non-negative prices); a range
whose parts fail integer parsing, or with fewer than two parts, yields
`false`; an unconfigured (blank) range passes; and the clause is a total
boolean function — every error is absorbed, never raised. The spec's own
boundary example (original 100, current 30: range [30,50] matches, [31,50]
does not) holds. -/
theorem c3_discount_check_truncated :
    (∀ (item : Item) (params : Params),
      (pyStripChars params.discount.data).isEmpty = true →
      discount_check item params = true)
    ∧ (∀ (item : Item) (params : Params) (vals : List Int),
      (pyStripChars params.discount.data).isEmpty = false →
      (pySplitDash params.discount).mapM pyParseInt = some vals →
      2 ≤ vals.length →
      (discount_check item params = true ↔
        (item.originalPrice ≠ PriceVal.null ∧ item.showPrice ≠ PriceVal.null
          ∧ 0 < parse_price item.originalPrice
          ∧ vals.getD 0 0
              ≤ pyTrunc (parse_price item.showPrice / parse_price item.originalPrice * 100)
          ∧ pyTrunc (parse_price item.showPrice / parse_price item.originalPrice * 100)
              ≤ vals.getD 1 0)))
    ∧ (∀ (item : Item) (params : Params),
      (pyStripChars params.discount.data).isEmpty = false →
      (pySplitDash params.discount).mapM pyParseInt = none →
      discount_check item params = false)
    ∧ (∀ (item : Item) (params : Params) (vals : List Int),
      (pyStripChars params.discount.data).isEmpty = false →
      (pySplitDash params.discount).mapM pyParseInt = some vals →
      vals.length < 2 →
      discount_check item params = false)
    ∧ (match_conditions item30 params3050 = Except.ok true
       ∧ match_conditions item30 params3150 = Except.ok false) := by
  refine ⟨?_, ?_, ?_, ?_, rfl, rfl⟩
  · intro item params h
    simp [discount_check, h]
  · intro item params vals hne hm hl
    simp only [discount_check, hne, Bool.false_eq_true, if_false, hm]
    rw [if_neg (by omega)]
    by_cases ho : item.originalPrice = PriceVal.null
    · simp [ho]
    by_cases hs2 : item.showPrice = PriceVal.null
    · simp [ho, hs2]
    by_cases hop : parse_price item.originalPrice ≤ 0
    · refine iff_of_false (by simp [ho, hs2, hop]) ?_
      rintro ⟨-, -, h0, -⟩
      exact absurd hop (not_le.mpr h0)
    · have h0 : 0 < parse_price item.originalPrice := lt_of_not_le hop
      simp [ho, hs2, hop, h0]
  · intro item params hne hm
    simp only [discount_check, hne, Bool.false_eq_true, if_false, hm]
  · intro item params vals hne hm hl
    simp only [discount_check, hne, Bool.false_eq_true, if_false, hm]
    rw [if_pos hl]

/-- Witness for the amended discount clause at the spec's boundary input:
original 100, current 30, configured range [30, 50]. -/
theorem c3_discount_check_witness :
    discount_check item30 params3050 = true ↔
      (item30.originalPrice ≠ PriceVal.null ∧ item30.showPrice ≠ PriceVal.null
        ∧ 0 < parse_price item30.originalPrice
        ∧ [(30 : Int), 50].getD 0 0
            ≤ pyTrunc (parse_price item30.showPrice / parse_price item30.originalPrice * 100)
        ∧ pyTrunc (parse_price item30.showPrice / parse_price item30.originalPrice * 100)
            ≤ [(30 : Int), 50].getD 1 0) :=
  c3_discount_check_truncated.2.1 item30 params3050 [30, 50] (by decide) (by decide) (by decide)

/-- Skipping a prefix of `j` attempts that all observe `running = true` and
fail with a retryable network error: the attempt loop advances by `j`,
issuing `j` posts, counting `j` retries, and sleeping `retry_delay` seconds
per failed attempt. -/
theorem make_request_go_skip (runD : Nat → Bool) (orc : Nat → AttemptOutcome) (j : Nat) :
    ∀ (n a r p s : Nat) (ev : List String), j ≤ n →
      (∀ i, i < j → runD (a + i) = true ∧ isNetErr (orc (a + i)) = true) →
      ∃ ev2, make_request_go runD orc n a r p s ev
        = make_request_go runD orc (n - j) (a + j) (r + j) (p + j) (s + retry_delay * j)
            (ev ++ ev2) := by
  induction j with
  | zero =>
    intro n a r p s ev _ _
    exact ⟨[], by simp⟩
  | succ k ih =>
    intro n a r p s ev hjn h
    obtain ⟨m, rfl⟩ : ∃ m, n = m + 1 := ⟨n - 1, by omega⟩
    have h0 := h 0 (by omega)
    rw [Nat.add_zero] at h0
    rw [make_request_go_succ, h0.1]
    have hshift : ∀ i, i < k → runD (a + 1 + i) = true ∧ isNetErr (orc (a + 1 + i)) = true := by
      intro i hi
      have := h (i + 1) (by omega)
      rwa [show a + (i + 1) = a + 1 + i by omega] at this
    rcases horc : orc a with r2 | _ | _ | m2
    · rw [horc] at h0; simp [isNetErr] at h0
    · obtain ⟨ev2, heq⟩ := ih m (a + 1) (r + 1) (p + 1) (s + retry_delay)
        (ev ++ ["连接错误，正在进行第" ++ toString (r + 1) ++ "次重试"]) (by omega) hshift
      refine ⟨["连接错误，正在进行第" ++ toString (r + 1) ++ "次重试"] ++ ev2, ?_⟩
      simp only [Bool.true_eq_false, if_false]
      rw [heq]
      congr 1 <;> first
        | omega
        | (rw [Nat.mul_succ]; omega)
        | rw [List.append_assoc]
    · obtain ⟨ev2, heq⟩ := ih m (a + 1) (r + 1) (p + 1) (s + retry_delay)
        (ev ++ ["连接超时，正在进行第" ++ toString (r + 1) ++ "次重试"]) (by omega) hshift
      refine ⟨["连接超时，正在进行第" ++ toString (r + 1) ++ "次重试"] ++ ev2, ?_⟩
      simp only [Bool.true_eq_false, if_false]
      rw [heq]
      congr 1 <;> first
        | omega
        | (rw [Nat.mul_succ]; omega)
        | rw [List.append_assoc]
    · rw [horc] at h0; simp [isNetErr] at h0

/-- C4 (amended): `_make_request`'s contract. Connection errors and timeouts
are retried with a `retry_delay`-second sleep per failed attempt, up to
`max_retries = 100` attempts in total; each attempt first reads the `running`
flag, and a cleared flag raises the stop exception at once (cancellation
aborts mid-retry); any other exception is wrapped and raised immediately with
no further attempt; a first responsive attempt returns its response. But the
call does not always return a response or raise: when all 100 attempts fail
with network errors the `for` loop is exhausted and the function returns
`None` (modelled `Except.ok none`), which the caller's validation step
reports as "no response from server". -/
theorem c4_retry_contract :
    (∀ (runD : Nat → Bool) (orc : Nat → AttemptOutcome) (r0 : Nat),
      (∀ i, i < max_retries → runD i = true ∧ isNetErr (orc i) = true) →
      (make_request runD orc r0).result = Except.ok none
      ∧ (make_request runD orc r0).posts = max_retries
      ∧ (make_request runD orc r0).slept = retry_delay * max_retries
      ∧ (make_request runD orc r0).retry_count = r0 + max_retries)
    ∧ (∀ (runD : Nat → Bool) (orc : Nat → AttemptOutcome) (r0 j : Nat),
      j < max_retries →
      (∀ i, i < j → runD i = true ∧ isNetErr (orc i) = true) →
      runD j = false →
      (make_request runD orc r0).result = Except.error "用户停止搜索"
      ∧ (make_request runD orc r0).posts = j)
    ∧ (∀ (runD : Nat → Bool) (orc : Nat → AttemptOutcome) (r0 j : Nat) (m : String),
      j < max_retries →
      (∀ i, i < j → runD i = true ∧ isNetErr (orc i) = true) →
      runD j = true → orc j = AttemptOutcome.otherError m →
      (make_request runD orc r0).result = Except.error ("请求异常: " ++ m)
      ∧ (make_request runD orc r0).posts = j + 1
      ∧ (make_request runD orc r0).slept = retry_delay * j)
    ∧ (∀ (runD : Nat → Bool) (orc : Nat → AttemptOutcome) (r0 j : Nat) (r : Response),
      j < max_retries →
      (∀ i, i < j → runD i = true ∧ isNetErr (orc i) = true) →
      runD j = true → orc j = AttemptOutcome.success r →
      (make_request runD orc r0).result = Except.ok (some r)
      ∧ (make_request runD orc r0).posts = j + 1
      ∧ (make_request runD orc r0).slept = retry_delay * j) := by
  refine ⟨?_, ?_, ?_, ?_⟩
  · intro runD orc r0 h
    obtain ⟨ev2, heq⟩ := make_request_go_skip runD orc max_retries max_retries 0 r0 0 0 []
      (le_refl _) (fun i hi => by simpa using h i hi)
    have hmr : make_request runD orc r0
        = ⟨Except.ok none, r0 + max_retries, 0 + max_retries,
           0 + retry_delay * max_retries, [] ++ ev2⟩ := by
      unfold make_request
      rw [heq, Nat.sub_self]
      rfl
    refine ⟨by simp [hmr], by simp [hmr], by simp [hmr], by simp [hmr]⟩
  · intro runD orc r0 j hj h hstop
    obtain ⟨ev2, heq⟩ := make_request_go_skip runD orc j max_retries 0 r0 0 0 []
      (by omega) (fun i hi => by simpa using h i hi)
    obtain ⟨w, hw⟩ : ∃ w, max_retries - j = w + 1 := ⟨max_retries - j - 1, by omega⟩
    have hmr : make_request runD orc r0
        = ⟨Except.error "用户停止搜索", r0 + j, 0 + j, 0 + retry_delay * j, [] ++ ev2⟩ := by
      unfold make_request
      rw [heq, hw, make_request_go_succ]
      simp [Nat.zero_add, hstop]
    exact ⟨by simp [hmr], by simp [hmr]⟩
  · intro runD orc r0 j m hj h hrun horc
    obtain ⟨ev2, heq⟩ := make_request_go_skip runD orc j max_retries 0 r0 0 0 []
      (by omega) (fun i hi => by simpa using h i hi)
    obtain ⟨w, hw⟩ : ∃ w, max_retries - j = w + 1 := ⟨max_retries - j - 1, by omega⟩
    have hmr : make_request runD orc r0
        = ⟨Except.error ("请求异常: " ++ m), r0 + j, (0 + j) + 1,
           0 + retry_delay * j, [] ++ ev2⟩ := by
      unfold make_request
      rw [heq, hw, make_request_go_succ]
      simp [Nat.zero_add, hrun, horc]
    exact ⟨by simp [hmr], by simp [hmr], by simp [hmr]⟩
  · intro runD orc r0 j r hj h hrun horc
    obtain ⟨ev2, heq⟩ := make_request_go_skip runD orc j max_retries 0 r0 0 0 []
      (by omega) (fun i hi => by simpa using h i hi)
    obtain ⟨w, hw⟩ : ∃ w, max_retries - j = w + 1 := ⟨max_retries - j - 1, by omega⟩
    have hmr : make_request runD orc r0
        = ⟨Except.ok (some r), r0 + j, (0 + j) + 1, 0 + retry_delay * j, [] ++ ev2⟩ := by
      unfold make_request
      rw [heq, hw, make_request_go_succ]
      simp [Nat.zero_add, hrun, horc]
    exact ⟨by simp [hmr], by simp [hmr], by simp [hmr]⟩

/-- C4 falls on the code: when every one of the 100 attempts fails with a
retryable network error (flag never cleared), `_make_request` exhausts its
`for` loop and falls through, implicitly returning `None` — so "the call
either returns an HTTP response or raises an exception" is false for this
network behaviour: the observed result is neither. -/
theorem c4_returns_none_counterexample :
    (make_request (fun _ => true) (fun _ => AttemptOutcome.connError) 0).result = Except.ok none
    ∧ ¬((∃ r : Response,
          (make_request (fun _ => true) (fun _ => AttemptOutcome.connError) 0).result
            = Except.ok (some r))
        ∨ (∃ e : String,
          (make_request (fun _ => true) (fun _ => AttemptOutcome.connError) 0).result
            = Except.error e)) := by
  have h : (make_request (fun _ => true) (fun _ => AttemptOutcome.connError) 0).result
      = Except.ok none := rfl
  refine ⟨h, ?_⟩
  rintro (⟨r, hr2⟩ | ⟨e, he⟩)
  · rw [h] at hr2
    exact Option.noConfusion (Except.ok.inj hr2)
  · rw [h] at he
    exact Except.noConfusion he

/-- Witness for the retry contract: two timeouts followed by a success return
the response after three posts and two retry delays. -/
theorem c4_retry_witness :
    (make_request (fun _ => true)
        (fun a => if a < 2 then AttemptOutcome.timeout else AttemptOutcome.success lastPageResp)
        0).result = Except.ok (some lastPageResp)
    ∧ (make_request (fun _ => true)
        (fun a => if a < 2 then AttemptOutcome.timeout else AttemptOutcome.success lastPageResp)
        0).posts = 2 + 1
    ∧ (make_request (fun _ => true)
        (fun a => if a < 2 then AttemptOutcome.timeout else AttemptOutcome.success lastPageResp)
        0).slept = retry_delay * 2 :=
  c4_retry_contract.2.2.2 (fun _ => true)
    (fun a => if a < 2 then AttemptOutcome.timeout else AttemptOutcome.success lastPageResp)
    0 2 lastPageResp (by decide) (fun i hi => ⟨rfl, by simp [hi, isNetErr]⟩) rfl rfl
